import Mathlib

/-!
Verification of the expression-evaluation core of the VRL compiler
(`src/lib/vrl/compiler/src/expression.rs`).

The file embeds the data model of that source file: the feature-flag
configuration surface, the diagnostics carrier types, the compile-time
`Error` enum, the runtime `ExpressionError` enum, the `Expression`
capability (trait) defaults, and the `Expr` tagged union with its
dispatching `resolve` / `as_value` / `type_def` / `as_str` operations.
The concrete expression implementers (literal.rs, container.rs, ...) and
the external `Context` / `State` / `Value` / `TypeDef` types are not part
of the source file; they are treated as abstract type parameters and
capability records, modelled from the spec where noted.
-/

/-- Modelled from the spec: the build-time configuration surface, one named
feature flag per toggleable tagged-union case family (`expr-if_statement`,
`expr-op`, `expr-function_call`, `expr-unary`, `expr-abort`). -/
structure Features where
  exprIfStatement : Bool
  exprOp : Bool
  exprFunctionCall : Bool
  exprUnary : Bool
  exprAbort : Bool

/-- Modelled from the spec: a source span references a location in the
original source text (`crate::Span` is not under src/). -/
structure Span where
  start : Nat
  stop : Nat

/-- Modelled from the spec: the severity-role of a label is either primary
or context. -/
inductive LabelRole where
  | primary
  | context

/-- Modelled from the spec: a label is (message, severity-role, source
span); `diagnostic::Label` is not under src/. -/
structure Label where
  message : String
  role : LabelRole
  span : Span

/-- `Label::primary(message, span)` constructor of the diagnostic crate. -/
def Label.primary (m : String) (sp : Span) : Label :=
  { message := m, role := LabelRole.primary, span := sp }

/-- `Label::context(message, span)` constructor of the diagnostic crate. -/
def Label.context (m : String) (sp : Span) : Label :=
  { message := m, role := LabelRole.context, span := sp }

/-- Modelled from the spec: a note is a short auxiliary hint, structured
("see error docs") or free text; `diagnostic::Note` is not under src/. -/
inductive Note where
  | SeeErrorDocs
  | Text (s : String)

/-- Compile-time construction errors (`enum Error` in expression.rs):
the expression is provably fallible but unhandled, or the expression kind
is excluded by the build configuration. -/
inductive Error where
  | Fallible (span : Span)
  | Missing (span : Span) (feature : String)

/-- `Error::code` in expression.rs. -/
def Error.code : Error → Nat
  | .Fallible _ => 100
  | .Missing _ _ => 900

/-- `Error::labels` in expression.rs. -/
def Error.labels : Error → List Label
  | .Fallible span =>
      [Label.primary "expression can result in runtime error" span,
       Label.context "handle the error case to ensure runtime success" span]
  | .Missing span feature =>
      [Label.primary "expression type is disabled in this version of vrl" span,
       Label.context ("build vrl using the `" ++ feature ++ "` feature to enable it") span]

/-- `Error::notes` in expression.rs. -/
def Error.notes : Error → List Note
  | .Fallible _ => [Note.SeeErrorDocs]
  | .Missing _ _ => []

/-- Runtime evaluation errors (`enum ExpressionError` in expression.rs).
The `Abort` variant exists only when the `expr-abort` feature is enabled,
captured here by the proof argument on the constructor. -/
inductive ExpressionError (F : Features) where
  | Abort (h : F.exprAbort = true) (span : Span)
  | Error (message : String) (labels : List Label) (notes : List Note)

variable {F : Features}

/-- `ExpressionError::code` in expression.rs: always 0. -/
def ExpressionError.code : ExpressionError F → Nat :=
  fun _ => 0

/-- `ExpressionError::message` in expression.rs. -/
def ExpressionError.message : ExpressionError F → String
  | .Abort _ _ => "aborted"
  | .Error m _ _ => m

/-- `ExpressionError::labels` in expression.rs. -/
def ExpressionError.labels : ExpressionError F → List Label
  | .Abort _ span => [Label.primary "aborted" span]
  | .Error _ ls _ => ls

/-- `ExpressionError::notes` in expression.rs. -/
def ExpressionError.notes : ExpressionError F → List Note
  | .Abort _ _ => []
  | .Error _ _ ns => ns

/-- `impl Display for ExpressionError` in expression.rs delegates to
`self.message()`. -/
def ExpressionError.display (e : ExpressionError F) : String :=
  e.message

/-- `impl From<String> for ExpressionError` in expression.rs. -/
def ExpressionError.fromString (message : String) : ExpressionError F :=
  .Error message [] []

/-- `impl From<&str> for ExpressionError` in expression.rs: delegates to
the `String` conversion. -/
def ExpressionError.fromStr (message : String) : ExpressionError F :=
  ExpressionError.fromString message

/-- Default body of `Expression::as_value` in expression.rs: `None`. -/
def Expression.asValueDefault {V : Type} : Option V :=
  none

/-- Default body of `Expression::update_state` in expression.rs:
`Ok(())`, with the state untouched. -/
def Expression.updateStateDefault {S : Type} (st : S) :
    Except (ExpressionError F) Unit × S :=
  (Except.ok (), st)

/-- Default body of `Expression::format` in expression.rs: `None`. -/
def Expression.formatDefault : Option String :=
  none

/-- Modelled from the spec: the Expression capability record standing for
one concrete implementer of the `Expression` trait (the concrete
implementers literal.rs, op.rs, ... are not under src/). Fields without
an override fall back to the trait defaults, exactly as in the trait
declaration. Mutation of the context and the static state is embedded as
explicit state passing. -/
structure ExpressionImpl (F : Features) (C S V T : Type) where
  resolve : C → Except (ExpressionError F) V × C
  asValue : Option V := Expression.asValueDefault
  typeDef : S → T
  updateState : S → Except (ExpressionError F) Unit × S := Expression.updateStateDefault
  format : Option String := Expression.formatDefault

/-- Modelled from the spec: the container sub-kinds
(`container::Variant` with cases Group, Block, Array, Object; container.rs
is not under src/). -/
inductive Variant (F : Features) (C S V T : Type) where
  | Group (v : ExpressionImpl F C S V T)
  | Block (v : ExpressionImpl F C S V T)
  | Array (v : ExpressionImpl F C S V T)
  | Object (v : ExpressionImpl F C S V T)

/-- Modelled from the spec: a container wraps one sub-kind variant
(container.rs is not under src/). -/
structure Container (F : Features) (C S V T : Type) where
  variant : Variant F C S V T

variable {C S V T : Type}

/-- Modelled from the spec: the container's own Expression implementation
routes every capability call to its active sub-kind's implementer
(container.rs is not under src/). -/
def Container.impl : Container F C S V T → ExpressionImpl F C S V T
  | ⟨.Group v⟩ => v
  | ⟨.Block v⟩ => v
  | ⟨.Array v⟩ => v
  | ⟨.Object v⟩ => v

/-- The closed tagged union `enum Expr` in expression.rs. Feature-gated
cases carry a proof that their flag is enabled, so the type contains
exactly the currently enabled cases. -/
inductive Expr (F : Features) (C S V T : Type) where
  | Literal (v : ExpressionImpl F C S V T)
  | Container (v : Container F C S V T)
  | IfStatement (h : F.exprIfStatement = true) (v : ExpressionImpl F C S V T)
  | Op (h : F.exprOp = true) (v : ExpressionImpl F C S V T)
  | Assignment (v : ExpressionImpl F C S V T)
  | Query (v : ExpressionImpl F C S V T)
  | FunctionCall (h : F.exprFunctionCall = true) (v : ExpressionImpl F C S V T)
  | Variable (v : ExpressionImpl F C S V T)
  | Noop (v : ExpressionImpl F C S V T)
  | Unary (h : F.exprUnary = true) (v : ExpressionImpl F C S V T)
  | Abort (h : F.exprAbort = true) (v : ExpressionImpl F C S V T)

/-- `Expr::as_str` in expression.rs: the human-readable kind name; the
Container case matches on the container's sub-kind. -/
def Expr.as_str : Expr F C S V T → String
  | .Literal _ => "literal"
  | .Container v =>
      match v.variant with
      | .Group _ => "group"
      | .Block _ => "block"
      | .Array _ => "array"
      | .Object _ => "object"
  | .IfStatement _ _ => "if-statement"
  | .Op _ _ => "operation"
  | .Assignment _ => "assignment"
  | .Query _ => "query"
  | .FunctionCall _ _ => "function call"
  | .Variable _ => "variable call"
  | .Noop _ => "noop"
  | .Unary _ _ => "unary operation"
  | .Abort _ _ => "abort operation"

/-- `Expr::resolve` in expression.rs: exhaustive dispatch to the active
case's implementer. -/
def Expr.resolve : Expr F C S V T → C → Except (ExpressionError F) V × C
  | .Literal v, ctx => v.resolve ctx
  | .Container v, ctx => v.impl.resolve ctx
  | .IfStatement _ v, ctx => v.resolve ctx
  | .Op _ v, ctx => v.resolve ctx
  | .Assignment v, ctx => v.resolve ctx
  | .Query v, ctx => v.resolve ctx
  | .FunctionCall _ v, ctx => v.resolve ctx
  | .Variable v, ctx => v.resolve ctx
  | .Noop v, ctx => v.resolve ctx
  | .Unary _ v, ctx => v.resolve ctx
  | .Abort _ v, ctx => v.resolve ctx

/-- `Expr::as_value` in expression.rs: exhaustive dispatch to the active
case's implementer. -/
def Expr.as_value : Expr F C S V T → Option V
  | .Literal v => v.asValue
  | .Container v => v.impl.asValue
  | .IfStatement _ v => v.asValue
  | .Op _ v => v.asValue
  | .Assignment v => v.asValue
  | .Query v => v.asValue
  | .FunctionCall _ v => v.asValue
  | .Variable v => v.asValue
  | .Noop v => v.asValue
  | .Unary _ v => v.asValue
  | .Abort _ v => v.asValue

/-- `Expr::type_def` in expression.rs: exhaustive dispatch to the active
case's implementer. -/
def Expr.type_def : Expr F C S V T → S → T
  | .Literal v, st => v.typeDef st
  | .Container v, st => v.impl.typeDef st
  | .IfStatement _ v, st => v.typeDef st
  | .Op _ v, st => v.typeDef st
  | .Assignment v, st => v.typeDef st
  | .Query v, st => v.typeDef st
  | .FunctionCall _ v, st => v.typeDef st
  | .Variable v, st => v.typeDef st
  | .Noop v, st => v.typeDef st
  | .Unary _ v, st => v.typeDef st
  | .Abort _ v, st => v.typeDef st

/-- The implementer wrapped by the active case of an `Expr` node (for the
Container case: the implementer its sub-kind dispatch selects). -/
def Expr.impl : Expr F C S V T → ExpressionImpl F C S V T
  | .Literal v => v
  | .Container v => v.impl
  | .IfStatement _ v => v
  | .Op _ v => v
  | .Assignment v => v
  | .Query v => v
  | .FunctionCall _ v => v
  | .Variable v => v
  | .Noop v => v
  | .Unary _ v => v
  | .Abort _ v => v

/-- The case discriminator of an `Expr` node, with the Container case
refined by its sub-kind, so that a tag determines a kind name. -/
inductive ExprTag where
  | Literal
  | Group
  | Block
  | Array
  | Object
  | IfStatement
  | Op
  | Assignment
  | Query
  | FunctionCall
  | Variable
  | Noop
  | Unary
  | Abort

/-- The tag of the active case of an `Expr` node. -/
def Expr.tag : Expr F C S V T → ExprTag
  | .Literal _ => .Literal
  | .Container v =>
      match v.variant with
      | .Group _ => .Group
      | .Block _ => .Block
      | .Array _ => .Array
      | .Object _ => .Object
  | .IfStatement _ _ => .IfStatement
  | .Op _ _ => .Op
  | .Assignment _ => .Assignment
  | .Query _ => .Query
  | .FunctionCall _ _ => .FunctionCall
  | .Variable _ => .Variable
  | .Noop _ => .Noop
  | .Unary _ _ => .Unary
  | .Abort _ _ => .Abort

/-- The fixed kind name attached to each case tag. -/
def ExprTag.name : ExprTag → String
  | .Literal => "literal"
  | .Group => "group"
  | .Block => "block"
  | .Array => "array"
  | .Object => "object"
  | .IfStatement => "if-statement"
  | .Op => "operation"
  | .Assignment => "assignment"
  | .Query => "query"
  | .FunctionCall => "function call"
  | .Variable => "variable call"
  | .Noop => "noop"
  | .Unary => "unary operation"
  | .Abort => "abort operation"

/-- The all-features-enabled build configuration. -/
def allFeatures : Features :=
  { exprIfStatement := true, exprOp := true, exprFunctionCall := true,
    exprUnary := true, exprAbort := true }

/-- A sample implementer over Nat-instantiated external types, used to
evaluate the dispatch theorems on concrete inputs. -/
def sampleImpl : ExpressionImpl allFeatures Nat Nat Nat Nat :=
  { resolve := fun ctx => (Except.ok 0, ctx), typeDef := fun _ => 0 }

/-- C2: converting a string `s` into a runtime expression error yields the
generic Error variant whose message is `s` and whose labels and notes are
empty. -/
theorem c2_from_string_roundtrip (s : String) :
    (ExpressionError.fromString s : ExpressionError F) = ExpressionError.Error s [] [] ∧
    (ExpressionError.fromString s : ExpressionError F).message = s ∧
    (ExpressionError.fromString s : ExpressionError F).labels = [] ∧
    (ExpressionError.fromString s : ExpressionError F).notes = [] :=
  ⟨rfl, rfl, rfl, rfl⟩

/-- C3: compile-time construction errors carry code 100 for the Fallible
variant and 900 for the Missing variant. -/
theorem c3_error_code :
    (∀ sp : Span, (Error.Fallible sp).code = 100) ∧
    (∀ (sp : Span) (f : String), (Error.Missing sp f).code = 900) :=
  ⟨fun _ => rfl, fun _ _ => rfl⟩

/-- C4: every runtime expression error, Abort or generic Error alike, has
code 0. -/
theorem c4_expression_error_code (e : ExpressionError F) : e.code = 0 :=
  rfl

/-- C6: a Fallible compile-time error renders exactly two labels, a
primary one followed by a context one, both at the error's span, and
exactly the single see-error-docs note. -/
theorem c6_fallible_diagnostics (sp : Span) :
    (Error.Fallible sp).labels =
      [Label.primary "expression can result in runtime error" sp,
       Label.context "handle the error case to ensure runtime success" sp] ∧
    (Error.Fallible sp).labels.map Label.role = [LabelRole.primary, LabelRole.context] ∧
    (Error.Fallible sp).labels.map Label.span = [sp, sp] ∧
    (Error.Fallible sp).notes = [Note.SeeErrorDocs] :=
  ⟨rfl, rfl, rfl, rfl⟩

/-- C7: a Missing compile-time error with feature name `f` renders exactly
one primary and one context label at the error's span, the context label's
message containing `f`, and no notes. -/
theorem c7_missing_diagnostics (sp : Span) (f : String) :
    (Error.Missing sp f).labels =
      [Label.primary "expression type is disabled in this version of vrl" sp,
       Label.context ("build vrl using the `" ++ f ++ "` feature to enable it") sp] ∧
    (Error.Missing sp f).labels.map Label.role = [LabelRole.primary, LabelRole.context] ∧
    (Error.Missing sp f).labels.map Label.span = [sp, sp] ∧
    (∃ pre post, ((Error.Missing sp f).labels[1]?).map Label.message =
      some (pre ++ f ++ post)) ∧
    (Error.Missing sp f).notes = [] :=
  ⟨rfl, rfl, rfl, ⟨"build vrl using the `", "` feature to enable it", rfl⟩, rfl⟩

/-- C9: an implementer that does not override update_state gets the trait
default, which returns Ok and leaves the static state unchanged. -/
theorem c9_default_update_state
    (r : C → Except (ExpressionError F) V × C) (td : S → T) (st : S) :
    ({ resolve := r, typeDef := td } : ExpressionImpl F C S V T).updateState st =
      (Except.ok (), st) :=
  rfl

/-- C10: with the Abort feature enabled, an Abort runtime error with span
`sp` has message "aborted", exactly one primary label "aborted" at `sp`,
no notes, and a Display output equal to its message. -/
theorem c10_abort_diagnostics (h : F.exprAbort = true) (sp : Span) :
    (ExpressionError.Abort h sp).message = "aborted" ∧
    (ExpressionError.Abort h sp).labels = [Label.primary "aborted" sp] ∧
    (ExpressionError.Abort h sp).notes = [] ∧
    (ExpressionError.Abort h sp).display = (ExpressionError.Abort h sp).message :=
  ⟨rfl, rfl, rfl, rfl⟩

/-- Concrete evaluation of the Abort diagnostics at the all-features build
and span 3..7. -/
theorem c10_witness :
    (ExpressionError.Abort (F := allFeatures) rfl ⟨3, 7⟩).message = "aborted" ∧
    (ExpressionError.Abort (F := allFeatures) rfl ⟨3, 7⟩).labels =
      [Label.primary "aborted" ⟨3, 7⟩] ∧
    (ExpressionError.Abort (F := allFeatures) rfl ⟨3, 7⟩).notes = [] ∧
    (ExpressionError.Abort (F := allFeatures) rfl ⟨3, 7⟩).display =
      (ExpressionError.Abort (F := allFeatures) rfl ⟨3, 7⟩).message :=
  c10_abort_diagnostics rfl ⟨3, 7⟩

/-- C5: for every enabled case, every context and every static state, the
dispatch engine's resolve, as_value and type_def return exactly the result
of the same operation on the wrapped implementer, and a feature-gated case
can only occur when its flag is enabled. -/
theorem c5_dispatch_delegates (e : Expr F C S V T) :
    (∀ ctx : C, e.resolve ctx = e.impl.resolve ctx) ∧
    (e.as_value = e.impl.asValue) ∧
    (∀ st : S, e.type_def st = e.impl.typeDef st) ∧
    (∀ h v, e = Expr.IfStatement h v → F.exprIfStatement = true) ∧
    (∀ h v, e = Expr.Op h v → F.exprOp = true) ∧
    (∀ h v, e = Expr.FunctionCall h v → F.exprFunctionCall = true) ∧
    (∀ h v, e = Expr.Unary h v → F.exprUnary = true) ∧
    (∀ h v, e = Expr.Abort h v → F.exprAbort = true) :=
  ⟨fun ctx => by cases e <;> rfl,
   by cases e <;> rfl,
   fun st => by cases e <;> rfl,
   fun h _ _ => h, fun h _ _ => h, fun h _ _ => h, fun h _ _ => h, fun h _ _ => h⟩

/-- Concrete evaluation of the dispatch theorem: resolving a Literal node
over Nat-instantiated externals delegates to its implementer. -/
theorem c5_witness :
    (Expr.Literal (F := allFeatures) sampleImpl).resolve 5 = sampleImpl.resolve 5 :=
  (c5_dispatch_delegates (Expr.Literal sampleImpl)).1 5

/-- C8: the kind name of a node is a fixed non-empty label determined only
by the active case tag, and for a Container node it is one of "group",
"block", "array", "object". -/
theorem c8_kind_name (e : Expr F C S V T) :
    e.as_str = e.tag.name ∧
    e.as_str ≠ "" ∧
    (∀ v, e = Expr.Container v →
      e.as_str ∈ (["group", "block", "array", "object"] : List String)) := by
  refine ⟨?_, ?_, ?_⟩
  · cases e with
    | Container v => obtain ⟨var⟩ := v; cases var <;> rfl
    | _ => rfl
  · cases e with
    | Container v => obtain ⟨var⟩ := v; cases var <;> simp [Expr.as_str]
    | _ => simp [Expr.as_str]
  · intro v h
    subst h
    obtain ⟨var⟩ := v
    cases var <;> simp [Expr.as_str]

/-- Concrete evaluation of the kind-name theorem: a Group container node's
kind name is among the four container labels. -/
theorem c8_witness :
    (Expr.Container (F := allFeatures) ⟨Variant.Group sampleImpl⟩).as_str ∈
      (["group", "block", "array", "object"] : List String) :=
  (c8_kind_name (Expr.Container ⟨Variant.Group sampleImpl⟩)).2.2
    ⟨Variant.Group sampleImpl⟩ rfl

/-- C1 counterexample: a runtime error constructed by converting a plain
string has an empty labels() list, so not every constructible error has
non-empty labels. -/
theorem c1_counterexample :
    (ExpressionError.fromString "whoops" : ExpressionError allFeatures).labels = [] :=
  rfl

/-- C1 (amended): both compile-time Error variants and the Abort runtime
variant yield non-empty labels; the generic runtime Error variant returns
exactly its stored labels, which are empty when it is built by converting
a plain string. -/
theorem c1_labels_amended :
    (∀ e : Error, e.labels ≠ []) ∧
    (∀ (G : Features) (h : G.exprAbort = true) (sp : Span),
      (ExpressionError.Abort h sp).labels ≠ []) ∧
    (∀ (G : Features) (m : String) (ls : List Label) (ns : List Note),
      (ExpressionError.Error m ls ns : ExpressionError G).labels = ls) ∧
    (∀ (G : Features) (m : String),
      (ExpressionError.fromString m : ExpressionError G).labels = []) :=
  ⟨fun e => by cases e <;> simp [Error.labels],
   fun _ _ _ => by simp [ExpressionError.labels],
   fun _ _ _ _ => rfl,
   fun _ _ => rfl⟩

/-- Concrete evaluation of the amended labels theorem at span 0..1 and a
sample message. -/
theorem c1_witness :
    (Error.Fallible ⟨0, 1⟩).labels ≠ [] ∧
    (ExpressionError.Abort (F := allFeatures) rfl ⟨0, 1⟩).labels ≠ [] ∧
    (ExpressionError.Error (F := allFeatures) "m" [] []).labels = [] :=
  ⟨c1_labels_amended.1 (Error.Fallible ⟨0, 1⟩),
   c1_labels_amended.2.1 allFeatures rfl ⟨0, 1⟩,
   c1_labels_amended.2.2.1 allFeatures "m" [] []⟩
